import Mathlib

/-!
Shallow embedding of the datacraft-framework orchestration engine
(`src/datacraft_framework`), written to check the natural-language
specification against the code.  Each Python function relevant to a claim is
translated into an executable Lean definition; frames are modelled as lists of
rows, machine strings as `String`, SQL selectors as list filters, and Python
exceptions as explicit result constructors.  Floating-point percentages are
modelled as exact rationals.
-/

namespace Datacraft

/-! ## Executable string primitives

Python's `in`, `str.split`, `str.replace` and `str.join` are re-implemented
by structural recursion over character lists, so that every definition in
this file evaluates inside the kernel. -/

/-- Does `pat` occur at the head of `s`? -/
def charsStartsWith : List Char → List Char → Bool
  | _, [] => true
  | [], _ :: _ => false
  | c :: cs, p :: ps => c = p && charsStartsWith cs ps

/-- Python `pat in s`: `pat` occurs somewhere in `s`. -/
def charsHasSubstr (s pat : List Char) : Bool :=
  match s with
  | [] => charsStartsWith [] pat
  | c :: cs => charsStartsWith (c :: cs) pat || charsHasSubstr cs pat

/-- Fuel-driven worker for `charsSplitOn`; a non-empty separator consumes
at least one character per step, so fuel equal to the input length is
enough and the fuel-exhausted branch is unreachable. -/
def charsSplitOnFuel : Nat → List Char → List Char → List (List Char)
  | _, [], _ => [[]]
  | 0, s, _ => [s]
  | fuel + 1, c :: cs, pat =>
    if pat ≠ [] ∧ charsStartsWith (c :: cs) pat then
      [] :: charsSplitOnFuel fuel ((c :: cs).drop pat.length) pat
    else
      match charsSplitOnFuel fuel cs pat with
      | [] => [[c]]
      | hd :: t => (c :: hd) :: t

/-- Python `s.split(pat)` for a non-empty separator: empty segments are
kept, and splitting the empty string yields `[[]]`. -/
def charsSplitOn (s pat : List Char) : List (List Char) :=
  charsSplitOnFuel s.length s pat

/-- Fuel-driven worker for `charsReplace`; as with `charsSplitOnFuel`,
fuel equal to the input length makes the exhausted branch unreachable. -/
def charsReplaceFuel : Nat → List Char → List Char → List Char → List Char
  | _, [], _, _ => []
  | 0, s, _, _ => s
  | fuel + 1, c :: cs, pat, rep =>
    if pat ≠ [] ∧ charsStartsWith (c :: cs) pat then
      rep ++ charsReplaceFuel fuel ((c :: cs).drop pat.length) pat rep
    else
      c :: charsReplaceFuel fuel cs pat rep

/-- Python `s.replace(pat, rep)` for a non-empty `pat`: replace every
non-overlapping occurrence, scanning left to right. -/
def charsReplace (s pat rep : List Char) : List Char :=
  charsReplaceFuel s.length s pat rep

/-- Python `sep.join(xs)` over character lists. -/
def charsJoinWith (sep : List Char) : List (List Char) → List Char
  | [] => []
  | [x] => x
  | x :: y :: rest => x ++ sep ++ charsJoinWith sep (y :: rest)

/-- Python `pat in s` on strings. -/
def hasSubstr (s pat : String) : Bool :=
  charsHasSubstr s.toList pat.toList

/-- Python `s.split(pat)` on strings. -/
def strSplitOn (s pat : String) : List String :=
  (charsSplitOn s.toList pat.toList).map String.mk

/-- Python `s.replace(pat, rep)` on strings. -/
def strReplace (s pat rep : String) : String :=
  String.mk (charsReplace s.toList pat.toList rep.toList)

/-- Python `sep.join(xs)` on strings. -/
def strJoinWith (sep : String) (xs : List String) : String :=
  String.mk (charsJoinWith sep.toList (xs.map String.toList))

/-! ## Common.S3Process.path_to_s3 -/

/-- Result record of `path_to_s3` (`Common/S3Process.py`). -/
structure S3Path where
  bucket : String
  key : String
  s3_location : String
  deriving Repr, DecidableEq

/-- Embedding of `path_to_s3(location, env)` from `Common/S3Process.py`:
split `location` on `/` (Python `str.split`, empty segments included),
prepend `env ++ "-"` to the first segment for the bucket, join the
remaining segments with `/` for the key, and assemble the `s3a://` URI.
`strSplitOn` never returns `[]`, so `headD`/`tail` match the Python `[0]`
and `pop(0)` exactly. -/
def path_to_s3 (location env : String) : S3Path :=
  let splited_inbound := strSplitOn location "/"
  let bucket_name := env ++ "-" ++ splited_inbound.headD ""
  let key_inbound := strJoinWith "/" splited_inbound.tail
  { bucket := bucket_name
    key := key_inbound
    s3_location := "s3a://" ++ bucket_name ++ "/" ++ key_inbound }

/-! ## Common.JsonDataMapper.convert_to_dict -/

/-- Python whitespace characters stripped by `int(str)` before parsing. -/
def isPySpace (c : Char) : Bool :=
  c = ' ' || c = '\t' || c = '\n' || c = '\x0d' || c = '\x0b' || c = '\x0c'

/-- Digit-run acceptor for Python `int` literals: a non-empty sequence of
decimal digits in which single underscores may appear strictly between
digits (`1_2` parses, `_1`, `1_` and `1__2` do not). -/
def pyDigitRun : List Char → Bool
  | [] => false
  | [c] => c.isDigit
  | c :: d :: rest =>
    if c.isDigit then
      if d = '_' then
        match rest with
        | [] => false
        | e :: _ => e.isDigit && pyDigitRun rest
      else d.isDigit && pyDigitRun (d :: rest)
    else false

/-- Numeric value of a digit run, ignoring underscores. -/
def pyDigitsVal (cs : List Char) : Nat :=
  cs.foldl (fun acc c => if c = '_' then acc else acc * 10 + (c.toNat - 48)) 0

/-- Embedding of Python `int(value)` on a string: strip surrounding
whitespace, accept one optional sign, then a digit run; `none` models
`ValueError`. -/
def pyIntOfString (s : String) : Option Int :=
  let cs := ((s.toList.dropWhile isPySpace).reverse.dropWhile isPySpace).reverse
  match cs with
  | '-' :: rest => if pyDigitRun rest then some (-(pyDigitsVal rest : Int)) else none
  | '+' :: rest => if pyDigitRun rest then some (pyDigitsVal rest : Int) else none
  | rest => if pyDigitRun rest then some (pyDigitsVal rest : Int) else none

/-- A cell value after `convert_to_dict`: Python either keeps the string or
replaces it by the parsed `int`. -/
inductive PyCell where
  | ofInt (n : Int)
  | ofStr (s : String)
  deriving Repr, DecidableEq

/-- The `try: int(value) except ValueError: value` coercion inside
`JsonDataMapper.convert_to_dict`. -/
def pyCoerce (v : String) : PyCell :=
  match pyIntOfString v with
  | some n => PyCell.ofInt n
  | none => PyCell.ofStr v

/-- `max(len(values) for values in data.values())` over the column map,
`0` only when the map is empty (where Python `max` would raise instead). -/
def maxColLen (data : List (String × List String)) : Nat :=
  data.foldl (fun acc kv => max acc kv.2.length) 0

/-- One output row of `convert_to_dict`: for each column take the `i`-th
value, or the last value when the column is shorter (`values[-1]`; the
`getLastD` default is unreachable for non-empty columns). -/
def convertRow (data : List (String × List String)) (i : Nat) :
    List (String × PyCell) :=
  data.map fun kv =>
    (kv.1, pyCoerce (if i < kv.2.length then kv.2[i]! else kv.2.getLastD ""))

/-- Embedding of `JsonDataMapper.convert_to_dict` (`Common/JsonDataMapper.py`):
iterate `i` over `range(max_length)` and assemble one aligned row per index. -/
def convert_to_dict (data : List (String × List String)) :
    List (List (String × PyCell)) :=
  (List.range (maxColLen data)).map (convertRow data)

/-! ## Common.FileNameGenerator and Common.PatternValidator -/

/-- A calendar date as rendered by `datetime.now().strftime`. -/
structure PyDate where
  year : Nat
  month : Nat
  day : Nat
  deriving Repr, DecidableEq

/-- Left-pad a numeral with zeros, as `strftime` does for `%Y`/`%m`/`%d`. -/
def padZeros (width n : Nat) : String :=
  let s := toString n
  String.mk (List.replicate (width - s.length) '0') ++ s

/-- `strftime("%Y%m%d")`. -/
def fmtYYYYMMDD (d : PyDate) : String :=
  padZeros 4 d.year ++ padZeros 2 d.month ++ padZeros 2 d.day

/-- `strftime("%Y%m")`. -/
def fmtYYYYMM (d : PyDate) : String :=
  padZeros 4 d.year ++ padZeros 2 d.month

/-- `strftime("%Y")`. -/
def fmtYYYY (d : PyDate) : String :=
  padZeros 4 d.year

/-- Embedding of `file_name_generator` (`Common/FileNameGenerator.py`),
parameterised by the current date: replace the longest date token present
(`YYYYMMDD`, else `YYYYMM`, else `YYYY`) by today's rendering; otherwise
return the name unchanged. -/
def file_name_generator (today : PyDate) (save_file_name : String) : String :=
  if hasSubstr save_file_name "YYYYMMDD" then
    strReplace save_file_name "YYYYMMDD" (fmtYYYYMMDD today)
  else if hasSubstr save_file_name "YYYYMM" then
    strReplace save_file_name "YYYYMM" (fmtYYYYMM today)
  else if hasSubstr save_file_name "YYYY" then
    strReplace save_file_name "YYYY" (fmtYYYY today)
  else
    save_file_name

/-- Tokens of the regular-expression fragment that `validate_pattern`
constructs: literal characters, `.` (any char), `.*`, and the fixed-width
digit classes `[0-9]\x7bn\x7d`. -/
inductive Tok where
  | lit (c : Char)
  | dot
  | dotStar
  | digits (n : Nat)
  deriving Repr, DecidableEq

/-- The character `\x7b`. -/
def lcub : Char := Char.ofNat 123

/-- The character `\x7d`. -/
def rcub : Char := Char.ofNat 125

/-- Tail of the class `[0-9]\x7b8\x7d` after the opening bracket. -/
def class8Tail : List Char := ['0', '-', '9', ']', lcub, '8', rcub]

/-- Tail of the class `[0-9]\x7b6\x7d` after the opening bracket. -/
def class6Tail : List Char := ['0', '-', '9', ']', lcub, '6', rcub]

/-- Tail of the class `[0-9]\x7b4\x7d` after the opening bracket. -/
def class4Tail : List Char := ['0', '-', '9', ']', lcub, '4', rcub]

/-- Fuel-driven worker for `parseToks`; every step consumes at least one
character, so fuel equal to the input length is enough. -/
def parseToksFuel : Nat → List Char → List Tok
  | _, [] => []
  | 0, _ => []
  | fuel + 1, c :: rest =>
    if c = '[' ∧ rest.take 7 = class8Tail then
      Tok.digits 8 :: parseToksFuel fuel (rest.drop 7)
    else if c = '[' ∧ rest.take 7 = class6Tail then
      Tok.digits 6 :: parseToksFuel fuel (rest.drop 7)
    else if c = '[' ∧ rest.take 7 = class4Tail then
      Tok.digits 4 :: parseToksFuel fuel (rest.drop 7)
    else if c = '.' ∧ rest.take 1 = ['*'] then
      Tok.dotStar :: parseToksFuel fuel (rest.drop 1)
    else if c = '.' then
      Tok.dot :: parseToksFuel fuel rest
    else
      Tok.lit c :: parseToksFuel fuel rest

/-- Tokenize the regex strings built by `validate_pattern`.  Only the
constructs that function ever emits are interpreted (digit classes, `.*`,
`.`); every other character is a literal, which coincides with Python `re`
on the file-pattern alphabet in use (letters, digits, `_`, `.`). -/
def parseToks (cs : List Char) : List Tok :=
  parseToksFuel cs.length cs

/-- Match a token list against the front of a character list; trailing
characters are allowed, because Python `re.match` anchors only at the
start. -/
def toksMatch : List Tok → List Char → Bool
  | [], _ => true
  | Tok.lit _ :: _, [] => false
  | Tok.lit c :: ts, x :: xs => x = c && toksMatch ts xs
  | Tok.dot :: _, [] => false
  | Tok.dot :: ts, _ :: xs => toksMatch ts xs
  | Tok.digits n :: ts, xs =>
    (xs.take n).length = n && (xs.take n).all Char.isDigit
      && toksMatch ts (xs.drop n)
  | Tok.dotStar :: ts, xs =>
    (List.range (xs.length + 1)).any fun k => toksMatch ts (xs.drop k)

/-- `re.match(regex_pattern, file_name)` truthiness for the generated
fragment. -/
def reMatch (regex_pattern file_name : String) : Bool :=
  toksMatch (parseToks regex_pattern.toList) file_name.toList

/-- Python return behaviour of `validate_pattern`: an explicit `True` or
`False`, the implicit `None` when control falls off the end of the
function, or an uncaught `ValueError` (a pattern holding a date token and
two or more `*`, whose two-element unpacking of `split` fails). -/
inductive VPResult where
  | ret (b : Bool)
  | retNone
  | raised
  deriving Repr, DecidableEq

/-- The digit class `[0-9]\x7b8\x7d` as a string. -/
def class8Str : String := "[0-9]\x7b8\x7d"

/-- The digit class `[0-9]\x7b6\x7d` as a string. -/
def class6Str : String := "[0-9]\x7b6\x7d"

/-- The digit class `[0-9]\x7b4\x7d` as a string. -/
def class4Str : String := "[0-9]\x7b4\x7d"

/-- One date-token branch of `validate_pattern`: with a `*`, split on it —
the source unpacks exactly two parts, so more than one `*` raises a
`ValueError` — replace the token only in the second part, and join with
`.*`; without a `*`, replace the token in the whole pattern. -/
def vpBranch (token cls : String) (file_pattern file_name : String) : VPResult :=
  if hasSubstr file_pattern "*" then
    match strSplitOn file_pattern "*" with
    | [regex_pattern_, other_pattern] =>
      VPResult.ret
        (reMatch (regex_pattern_ ++ ".*" ++ strReplace other_pattern token cls)
          file_name)
    | _ => VPResult.raised
  else
    VPResult.ret (reMatch (strReplace file_pattern token cls) file_name)

/-- Embedding of `validate_pattern(file_pattern, file_name)` with the
default `custom=False` (`Common/PatternValidator.py`): dispatch on which
date token occurs in the pattern; when none occurs, control falls off the
end of the `if not custom` block and Python returns `None`. -/
def validate_pattern (file_pattern file_name : String) : VPResult :=
  if hasSubstr file_pattern "YYYYMMDD" then
    vpBranch "YYYYMMDD" class8Str file_pattern file_name
  else if hasSubstr file_pattern "YYYYMM" then
    vpBranch "YYYYMM" class6Str file_pattern file_name
  else if hasSubstr file_pattern "YYYY" then
    vpBranch "YYYY" class4Str file_pattern file_name
  else
    VPResult.retNone

/-! ## Common.OrchestrationProcess selectors -/

/-- A `log_dqm` row, restricted to the columns the selectors read. -/
structure LogDqmRow where
  process_id : Nat
  dataset_id : Nat
  source_file : String
  batch_id : Nat
  status : String
  deriving Repr, DecidableEq

/-- A `log_transformation` row, restricted to the columns the selectors
read. -/
structure LogTransRow where
  process_id : Nat
  dataset_id : Nat
  source_file : String
  batch_id : Nat
  status : String
  deriving Repr, DecidableEq

/-- Embedding of `OrchestrationProcess.get_unprocessed_transformation_files`
(`Common/OrchestrationProcess.py`): select `log_dqm` rows of the requested
process and dataset whose `source_file` is not among the `SUCCEEDED`
`log_transformation` source files.  The source applies no status filter to
the `log_dqm` rows themselves. -/
def get_unprocessed_transformation_files (dqmLog : List LogDqmRow)
    (transLog : List LogTransRow) (process_id dataset_id : Nat) :
    List LogDqmRow :=
  let subquery :=
    (transLog.filter fun t => t.status == "SUCCEEDED").map fun t => t.source_file
  dqmLog.filter fun r =>
    !subquery.contains r.source_file
      && r.process_id == process_id && r.dataset_id == dataset_id

/-- Modelled from the spec's resumability contract (for comparison with the
source selector): unprocessed at gold means present in the DQM log with
status `SUCCEEDED` and absent from the transformation log with status
`SUCCEEDED`. -/
def specUnprocessedAtGold (dqmLog : List LogDqmRow)
    (transLog : List LogTransRow) (process_id dataset_id : Nat) :
    List LogDqmRow :=
  let doneFiles :=
    (transLog.filter fun t => t.status == "SUCCEEDED").map fun t => t.source_file
  dqmLog.filter fun r =>
    r.status == "SUCCEEDED" && !doneFiles.contains r.source_file
      && r.process_id == process_id && r.dataset_id == dataset_id

/-! ## SilverLayerScripts.DataQualityCheck -/

/-- The `dqm_master_dtl` rule fields the check functions read (the SQL
`qc_filter` text is modelled separately as an evaluated row predicate). -/
structure CtlDqmMasterDtl where
  column_name : String
  qc_type : String
  qc_param : String
  criticality : String
  criticality_threshold_pct : Rat
  deriving Repr, DecidableEq

/-- The `log_dqm` fields written by a check that the claims observe. -/
structure DqmLogEntry where
  status : String
  error_count : Nat
  error_pct : Rat
  deriving Repr, DecidableEq

/-- Outcome of one DQM check function: return the passing frame after
logging `SUCCEEDED`, raise after logging `FAILED`, fall off the function
returning `None` (criticality neither `C` nor `NC` with failures), or hit a
Python runtime error before any log is written. -/
inductive DqmResult where
  | succeeded (log : DqmLogEntry) (passing : List (Option String))
  | failedRaise (log : DqmLogEntry)
  | noneReturn
  | pyError
  deriving Repr, DecidableEq

/-- Frames are abstracted to the checked column: one `Option String` per
row, `none` being SQL NULL. -/
abbrev DqmFrame := List (Option String)

/-- Passing frame of `null_check`: rows whose column is not null, further
filtered by the evaluated `qc_filter` predicate when one is configured. -/
def nullPassing (df : DqmFrame) (qc_filter : Option (Option String → Bool)) :
    DqmFrame :=
  let non_null := df.filter fun v => v.isSome
  match qc_filter with
  | some p => non_null.filter p
  | none => non_null

/-- Failure percentage `failed / total * 100`, in exact rationals in place
of Python floats. -/
def failurePct (failure_count total : Nat) : Rat :=
  (failure_count : Rat) / (total : Rat) * 100

/-- Embedding of `DataQualityCheck.null_check`
(`SilverLayerScripts/DataQualityCheck.py`).  With failures, dispatch on
criticality exactly as the source's `if`/`elif` chain (`C` with
`failed_pct >= threshold` logs FAILED and raises; `C` otherwise and `NC`
log SUCCEEDED and return the passing rows; any other criticality string
falls through returning `None`).  With zero failures the source evaluates
`error_pct=failure_percentage` where `failure_percentage` was never
assigned, so Python raises `UnboundLocalError` before inserting any log
row. -/
def null_check (df : DqmFrame) (qc_filter : Option (Option String → Bool))
    (dqm : CtlDqmMasterDtl) : DqmResult :=
  let total := df.length
  let passing := nullPassing df qc_filter
  let failure_count := total - passing.length
  if failure_count ≠ 0 then
    let pct := failurePct failure_count total
    if dqm.criticality = "C" ∧ dqm.criticality_threshold_pct ≤ pct then
      DqmResult.failedRaise
        { status := "FAILED", error_count := failure_count, error_pct := pct }
    else if dqm.criticality = "C" ∧ pct ≤ dqm.criticality_threshold_pct then
      DqmResult.succeeded
        { status := "SUCCEEDED", error_count := failure_count, error_pct := pct }
        passing
    else if dqm.criticality = "NC" then
      DqmResult.succeeded
        { status := "SUCCEEDED", error_count := failure_count, error_pct := pct }
        passing
    else
      DqmResult.noneReturn
  else
    DqmResult.pyError

/-- Full-string acceptor of the regex the source passes to `str.contains`
in both `integer_dqm_check` and `decimal_dqm_check`, `(^-?\d+$)`: an
optional minus sign followed by one or more digits and nothing else (the
anchors make contains equivalent to a whole-string match). -/
def intRegexMatches (s : String) : Bool :=
  match s.toList with
  | '-' :: rest => !rest.isEmpty && rest.all Char.isDigit
  | cs => !cs.isEmpty && cs.all Char.isDigit

/-- Modelled from the spec's decimal contract (for comparison with the
source): full-string acceptor of `^-?\d+(\.\d+)?$` — optional minus sign,
one or more digits, and an optional fractional part of a dot followed by
one or more digits. -/
def specDecimalMatches (s : String) : Bool :=
  let cs := match s.toList with
    | '-' :: rest => rest
    | rest => rest
  let intPart := cs.takeWhile Char.isDigit
  let rest := cs.dropWhile Char.isDigit
  !intPart.isEmpty &&
    (match rest with
     | [] => true
     | '.' :: frac => !frac.isEmpty && frac.all Char.isDigit
     | _ => false)

/-- Passing frame of `decimal_dqm_check`: rows whose column value matches
the (integer) regex; a NULL value yields a null mask entry and is filtered
out. -/
def decimalPassing (df : DqmFrame)
    (qc_filter : Option (Option String → Bool)) : DqmFrame :=
  let matched := df.filter fun v =>
    match v with
    | some s => intRegexMatches s
    | none => false
  match qc_filter with
  | some p => matched.filter p
  | none => matched

/-- Embedding of `DataQualityCheck.decimal_dqm_check`
(`SilverLayerScripts/DataQualityCheck.py`): same criticality dispatch as
`null_check`; its zero-failure branch logs `SUCCEEDED` with
`error_count = failure_count` (which is `0`) and `error_pct = 0`, then
returns the passing frame. -/
def decimal_dqm_check (df : DqmFrame)
    (qc_filter : Option (Option String → Bool)) (dqm : CtlDqmMasterDtl) :
    DqmResult :=
  let total := df.length
  let passing := decimalPassing df qc_filter
  let failure_count := total - passing.length
  if failure_count ≠ 0 then
    let pct := failurePct failure_count total
    if dqm.criticality = "C" ∧ dqm.criticality_threshold_pct ≤ pct then
      DqmResult.failedRaise
        { status := "FAILED", error_count := failure_count, error_pct := pct }
    else if dqm.criticality = "C" ∧ pct ≤ dqm.criticality_threshold_pct then
      DqmResult.succeeded
        { status := "SUCCEEDED", error_count := failure_count, error_pct := pct }
        passing
    else if dqm.criticality = "NC" then
      DqmResult.succeeded
        { status := "SUCCEEDED", error_count := failure_count, error_pct := pct }
        passing
    else
      DqmResult.noneReturn
  else
    DqmResult.succeeded
      { status := "SUCCEEDED", error_count := failure_count, error_pct := 0 }
      passing

/-! ## SilverLayerScripts.DataStandardization -/

/-- One `standardization_dtl` rule: the dispatch key and the parsed `type`
entry of `function_params` (read by the padding and type_conversion
branches; the other parameters do not affect whether a branch raises). -/
structure CtlDataStandardisationDtl where
  column_name : String
  function_name : String
  params_type : String
  deriving Repr, DecidableEq

/-- Whether applying one standardization rule raises inside the source's
`try` block: `padding` raises on a padding type other than `left`/`right`;
`blank_conversion` always raises, because it calls
`Expr.replace(pattern=..., value=...)` with keyword names that method does
not have; `trim`, `replace`, `type_conversion` and `sub_string` do not
raise (a `type_conversion` type other than `lower`/`upper` silently does
nothing); any unrecognized `function_name` hits the final `else` and
raises. -/
def standardizeRaises (r : CtlDataStandardisationDtl) : Bool :=
  if r.function_name = "padding" then
    !(r.params_type == "left" || r.params_type == "right")
  else if r.function_name = "trim" then false
  else if r.function_name = "blank_conversion" then true
  else if r.function_name = "replace" then false
  else if r.function_name = "type_conversion" then false
  else if r.function_name = "sub_string" then false
  else true

/-- Observable outcome of processing one batch in
`DataStandardization.__init__`: the statuses of the `log_standardization`
rows inserted, in order, and whether the standardized snapshot was
written. -/
structure StdBatchOutcome where
  logStatuses : List String
  snapshotWritten : Bool
  deriving Repr, DecidableEq

/-- Embedding of the per-batch body of `DataStandardization.__init__`
(`SilverLayerScripts/DataStandardization.py`): with a non-empty rule list,
iterate the rules — each rule that raises is caught by the per-rule
`except`, which inserts a FAILED log row and continues the loop — then
unconditionally write the standardized snapshot and insert a SUCCEEDED log
row; with no rules, write the snapshot and insert a SUCCEEDED row. -/
def processStandardizationBatch (rules : List CtlDataStandardisationDtl) :
    StdBatchOutcome :=
  if rules.length ≠ 0 then
    let failLogs := rules.foldl
      (fun acc r => if standardizeRaises r then acc ++ ["FAILED"] else acc) []
    { logStatuses := failLogs ++ ["SUCCEEDED"], snapshotWritten := true }
  else
    { logStatuses := ["SUCCEEDED"], snapshotWritten := true }

/-! ## Common.DataProcessor.DeltaTableWriter -/

/-- A cell value in a written table. -/
inductive CellVal where
  | vstr (s : String)
  | vint (n : Int)
  deriving Repr, DecidableEq

/-- A table row: named cells in column order. -/
abbrev TableRow := List (String × CellVal)

/-- `with_columns(lit(batch_id).alias("batch_id"))` on one row: replace the
`batch_id` column if present, else append it. -/
def setBatchIdCol (batch_id : Int) (r : TableRow) : TableRow :=
  if r.any fun p => p.1 == "batch_id" then
    r.map fun p => if p.1 == "batch_id" then (p.1, CellVal.vint batch_id) else p
  else
    r ++ [("batch_id", CellVal.vint batch_id)]

/-- The three input shapes `DeltaTableWriter.__init__` accepts; for the
CSV/TXT path the rows the object parses to are carried alongside the path
string. -/
inductive WriterInput where
  | frame (rows : List TableRow)
  | csvPath (path : String) (fileRows : List TableRow)
  | dicts (rows : List TableRow)

/-- Outcome of one `DeltaTableWriter.__init__` call: rows appended to the
Delta table, a silent fall-through with no write, or an uncaught Python
error before any row reaches the table. -/
inductive WriteOutcome where
  | written (rows : List TableRow)
  | noWrite
  | raised
  deriving Repr, DecidableEq

/-- Embedding of `DeltaTableWriter.__init__` (`Common/DataProcessor.py`).
The DataFrame and CSV/TXT branches reassign the frame with the `batch_id`
column attached before writing; the CSV/TXT branch writes only when the
path mentions `csv` or `txt`, and otherwise falls through without writing.
The list-of-dicts branch evaluates `df.with_columns(...)` but discards its
result, and then calls `df.write_delta(file=save_location, ...)` — a
keyword `write_delta` does not have (its parameter is `target`) — so the
call raises `TypeError` and no rows are ever written on that path. -/
def DeltaTableWriter (input : WriterInput) (batch_id : Int) : WriteOutcome :=
  match input with
  | WriterInput.frame rows =>
    WriteOutcome.written (rows.map (setBatchIdCol batch_id))
  | WriterInput.csvPath path fileRows =>
    if hasSubstr path "csv" || hasSubstr path "txt" then
      WriteOutcome.written (fileRows.map (setBatchIdCol batch_id))
    else
      WriteOutcome.noWrite
  | WriterInput.dicts _ =>
    WriteOutcome.raised

/-! ## Common.DataProcessor.DeltaTableWriterScdType2 -/

/-- A gold-table row restricted to the SCD-2 envelope columns the merge
reads and writes; `key` stands for the primary-key column value named in
the merge predicate. -/
structure GoldRow where
  key : String
  sys_checksum : String
  eff_strt_dt : String
  eff_end_dt : String
  sys_del_flg : String
  deriving Repr, DecidableEq

/-- The active-row sentinel date. -/
def scdSentinel : String := "9999-12-31"

/-- The merge predicate
`target.eff_end_dt == '9999-12-31' AND <primary_keys>` between a target
row and a staging row. -/
def mergePred (t s : GoldRow) : Bool :=
  t.eff_end_dt == scdSentinel && t.key == s.key

/-- Phase-1 `when_matched_update` applied to one target row: when a staging
row matches under the merge predicate and the update predicate
`target.sys_checksum != staging.sys_checksum` holds, close the row
(`eff_end_dt := staging.eff_strt_dt`, `sys_del_flg := 'Y'`); otherwise
leave it unchanged.  `find?` takes the first match; Delta itself rejects a
merge in which several source rows match one target row, so the model is
exact whenever staging keys are distinct. -/
def phase1Update (staging : List GoldRow) (t : GoldRow) : GoldRow :=
  match staging.find? (fun s => mergePred t s) with
  | some s =>
    if t.sys_checksum ≠ s.sys_checksum then
      { t with eff_end_dt := s.eff_strt_dt, sys_del_flg := "Y" }
    else t
  | none => t

/-- `when_not_matched_insert_all` against a given target state: the staging
rows matching no target row under the merge predicate. -/
def notMatchedInserts (staging target : List GoldRow) : List GoldRow :=
  staging.filter fun s => !(target.any fun t => mergePred t s)

/-- Embedding of `DeltaTableWriterScdType2.__init__`
(`Common/DataProcessor.py`): phase 1 updates matched-and-changed rows and
inserts unmatched staging rows; phase 2 runs `when_not_matched_insert_all`
again against the phase-1 result, inserting the replacement versions of
rows closed in phase 1. -/
def scdType2Merge (staging target : List GoldRow) : List GoldRow :=
  let afterPhase1 :=
    target.map (phase1Update staging) ++ notMatchedInserts staging target
  afterPhase1 ++ notMatchedInserts staging afterPhase1

/-- Is a gold row an active row of key `k` (`eff_end_dt` equal to the
sentinel)? -/
def actK (k : String) (r : GoldRow) : Bool :=
  r.key == k && r.eff_end_dt == scdSentinel

/-- Number of rows with key `k` that are active. -/
def countActive (rows : List GoldRow) (k : String) : Nat :=
  rows.countP (actK k)

/-- Status of the log row a DQM check inserted, when it inserted one. -/
def dqmStatus : DqmResult → Option String
  | DqmResult.succeeded log _ => some log.status
  | DqmResult.failedRaise log => some log.status
  | DqmResult.noneReturn => none
  | DqmResult.pyError => none

/-- `error_count` of the log row a DQM check inserted, when it inserted
one. -/
def dqmErrorCount : DqmResult → Option Nat
  | DqmResult.succeeded log _ => some log.error_count
  | DqmResult.failedRaise log => some log.error_count
  | DqmResult.noneReturn => none
  | DqmResult.pyError => none

/-- The passing frame a DQM check returned, when it returned one. -/
def dqmPassing : DqmResult → Option DqmFrame
  | DqmResult.succeeded _ p => some p
  | _ => none

/-! ## Concrete fixtures used by the evaluation theorems -/

/-- A `log_dqm` row whose check FAILED, with no transformation log yet. -/
def c1FailedDqmRow : LogDqmRow :=
  { process_id := 1, dataset_id := 2, source_file := "sales_20250101.csv"
    batch_id := 202501011230000001, status := "FAILED" }

/-- A critical rule whose threshold is zero. -/
def c3ZeroThresholdRule : CtlDqmMasterDtl :=
  { column_name := "region", qc_type := "null", qc_param := ""
    criticality := "C", criticality_threshold_pct := 0 }

/-- A critical null rule with a 50 percent threshold. -/
def c3FiftyRule : CtlDqmMasterDtl :=
  { column_name := "region", qc_type := "null", qc_param := ""
    criticality := "C", criticality_threshold_pct := 50 }

/-- A critical rule with a 50 percent threshold, for the zero-failure
paths. -/
def c4Rule : CtlDqmMasterDtl :=
  { column_name := "amount", qc_type := "null", qc_param := ""
    criticality := "C", criticality_threshold_pct := 50 }

/-- A non-critical decimal rule. -/
def c8Rule : CtlDqmMasterDtl :=
  { column_name := "amount", qc_type := "decimal", qc_param := ""
    criticality := "NC", criticality_threshold_pct := 100 }

/-- A standardization rule list holding one unrecognized function name. -/
def c5BogusRules : List CtlDataStandardisationDtl :=
  [{ column_name := "region", function_name := "bogus", params_type := "" }]

/-- A one-row, one-column list-of-dicts input. -/
def c6DictRows : List TableRow :=
  [[("region", CellVal.vstr "EU")]]

/-- Two staging rows sharing primary key `1` with different checksums, both
carrying the active sentinel. -/
def c2DupStaging : List GoldRow :=
  [{ key := "1", sys_checksum := "a", eff_strt_dt := "2024-01-01"
     eff_end_dt := scdSentinel, sys_del_flg := "N" },
   { key := "1", sys_checksum := "b", eff_strt_dt := "2024-01-01"
     eff_end_dt := scdSentinel, sys_del_flg := "N" }]

/-- The column map of the `convert_to_dict` docstring example. -/
def c10Data : List (String × List String) :=
  [("name", ["Alice", "Bob"]), ("age", ["30", "25"])]

/-- A gold table with one active row of key `1`, checksum `a`. -/
def c2TargetOld : List GoldRow :=
  [{ key := "1", sys_checksum := "a", eff_strt_dt := "2024-01-01"
     eff_end_dt := scdSentinel, sys_del_flg := "N" }]

/-- A staging frame carrying the day-2 version of key `1`. -/
def c2StagingNew : List GoldRow :=
  [{ key := "1", sys_checksum := "b", eff_strt_dt := "2024-01-02"
     eff_end_dt := scdSentinel, sys_del_flg := "N" }]

/-! ## Claim theorems -/

/-- C1: the gold-stage selector in the source applies no status filter to
the DQM log, so a batch whose only `log_dqm` row has status FAILED is
selected as unprocessed at gold, while the spec's resumability contract
(formalised by `specUnprocessedAtGold`) selects nothing — the claim's
required equality fails on the code. -/
theorem c1_failed_dqm_row_is_selected :
    get_unprocessed_transformation_files [c1FailedDqmRow] [] 1 2
        = [c1FailedDqmRow]
      ∧ specUnprocessedAtGold [c1FailedDqmRow] [] 1 2 = []
      ∧ c1FailedDqmRow.status = "FAILED" := by
  decide

/-- C4: on a frame with zero failing rows the null rule does not log
SUCCEEDED — evaluating `error_pct=failure_percentage` raises
`UnboundLocalError` before any log insert — while the decimal rule's
zero-failure branch does log SUCCEEDED with `error_count = 0` and returns
the passing frame. -/
theorem c4_null_rule_crashes_on_zero_failures :
    null_check [some "x"] none c4Rule = DqmResult.pyError
      ∧ decimal_dqm_check [some "5"] none c4Rule
          = DqmResult.succeeded
              { status := "SUCCEEDED", error_count := 0, error_pct := 0 }
              [some "5"] := by
  decide

/-- C5: with a rule list holding one unrecognized function name, the batch
inserts a FAILED `log_standardization` row but does not abort: the
standardized snapshot is still written and a SUCCEEDED row is inserted
right after, contradicting the claim. -/
theorem c5_unknown_function_does_not_abort :
    processStandardizationBatch c5BogusRules
      = { logStatuses := ["FAILED", "SUCCEEDED"], snapshotWritten := true } := by
  decide

/-- C6: the list-of-dicts branch of the landing/staging writer — one of
the claim's three accepted inputs — discards the result of attaching the
`batch_id` column and then raises at the write call itself (the keyword
`file` does not exist on `write_delta`), so that path never writes any
row, tagged or not; the DataFrame branch does tag every written row with
the supplied batch id. -/
theorem c6_dict_input_write_raises :
    DeltaTableWriter (WriterInput.dicts c6DictRows) 7 = WriteOutcome.raised
      ∧ DeltaTableWriter (WriterInput.frame c6DictRows) 7
          = WriteOutcome.written
              [[("region", CellVal.vstr "EU"),
                ("batch_id", CellVal.vint 7)]] := by
  decide

/-- C7: the pattern `report_*.csv` contains only supported tokens (a `*`
wildcard and literals), yet `validate_pattern` on its rendering — which the
renderer leaves unchanged, having no date token — reaches no branch of the
`if not custom` block and returns Python `None`, not `True`; the function's
own docstring promises `True` for exactly this wildcard example. -/
theorem c7_wildcard_only_pattern_returns_none (d : PyDate) :
    file_name_generator d "report_*.csv" = "report_*.csv"
      ∧ validate_pattern "report_*.csv"
          (file_name_generator d "report_*.csv") = VPResult.retNone := by
  have hgen : file_name_generator d "report_*.csv" = "report_*.csv" := by
    unfold file_name_generator
    rw [if_neg (by decide), if_neg (by decide), if_neg (by decide)]
  exact ⟨hgen, by rw [hgen]; decide⟩

/-- C7 witness: the same evaluation pinned at a concrete date. -/
theorem c7_wildcard_only_pattern_returns_none_witness :
    file_name_generator ⟨2025, 10, 12⟩ "report_*.csv" = "report_*.csv"
      ∧ validate_pattern "report_*.csv"
          (file_name_generator ⟨2025, 10, 12⟩ "report_*.csv")
          = VPResult.retNone :=
  c7_wildcard_only_pattern_returns_none ⟨2025, 10, 12⟩

/-- C8: the decimal rule's implementation filters with the integer regex
`^-?\d+$`, so the value `1.5` — accepted by the spec's decimal regex
`^-?\d+(\.\d+)?$`, formalised by `specDecimalMatches` — fails the check:
on a one-row frame the passing set is empty and the row is counted as an
error, contradicting the claim. -/
theorem c8_decimal_rule_rejects_fractional_value :
    intRegexMatches "1.5" = false
      ∧ specDecimalMatches "1.5" = true
      ∧ dqmStatus (decimal_dqm_check [some "1.5"] none c8Rule)
          = some "SUCCEEDED"
      ∧ dqmErrorCount (decimal_dqm_check [some "1.5"] none c8Rule) = some 1
      ∧ dqmPassing (decimal_dqm_check [some "1.5"] none c8Rule) = some [] := by
  decide

/-- C3 counterexample: a critical null rule with threshold 0 applied to a
non-empty frame with zero failing rows has `failed_pct = 0 ≥ threshold`,
yet the code inserts no FAILED row and performs no criticality abort — the
zero-failure branch runs instead (for the null rule it stops in a Python
`UnboundLocalError`), so the claim fails when no row fails. -/
theorem c3_zero_failures_not_aborted_at_zero_threshold :
    c3ZeroThresholdRule.criticality = "C"
      ∧ [some "EU"].length - (nullPassing [some "EU"] none).length = 0
      ∧ c3ZeroThresholdRule.criticality_threshold_pct
          ≤ failurePct
              ([some "EU"].length - (nullPassing [some "EU"] none).length)
              [some "EU"].length
      ∧ dqmStatus (null_check [some "EU"] none c3ZeroThresholdRule)
          ≠ some "FAILED"
      ∧ null_check [some "EU"] none c3ZeroThresholdRule = DqmResult.pyError := by
  refine ⟨rfl, by decide, ?_, by decide, by decide⟩
  show (0 : Rat) ≤ failurePct 0 1
  norm_num [failurePct]

/-- C3 amended: whenever at least one row fails, a critical rule whose
failure percentage reaches or exceeds the threshold (equality included,
the source comparison being `>=`) inserts a log_dqm row with status FAILED
carrying the failure count and percentage, and aborts by raising; stated
for the claim's cited `null_check`. -/
theorem c3_critical_breach_aborts (df : DqmFrame)
    (f : Option (Option String → Bool)) (dqm : CtlDqmMasterDtl)
    (hC : dqm.criticality = "C")
    (hfc : df.length - (nullPassing df f).length ≠ 0)
    (hpct : dqm.criticality_threshold_pct
      ≤ failurePct (df.length - (nullPassing df f).length) df.length) :
    null_check df f dqm =
      DqmResult.failedRaise
        { status := "FAILED"
          error_count := df.length - (nullPassing df f).length
          error_pct :=
            failurePct (df.length - (nullPassing df f).length) df.length } := by
  unfold null_check
  rw [if_pos hfc, if_pos ⟨hC, hpct⟩]

/-- C3 witness: a two-row frame with one null region under a critical
50-percent rule fails exactly half the rows, and the amended theorem
applies: the check logs FAILED with one error at 50 percent and raises. -/
theorem c3_critical_breach_aborts_witness :
    c3FiftyRule.criticality = "C"
      ∧ [some "a", none].length - (nullPassing [some "a", none] none).length ≠ 0
      ∧ c3FiftyRule.criticality_threshold_pct
          ≤ failurePct
              ([some "a", none].length
                - (nullPassing [some "a", none] none).length)
              [some "a", none].length
      ∧ null_check [some "a", none] none c3FiftyRule =
          DqmResult.failedRaise
            { status := "FAILED", error_count := 1, error_pct := 50 } := by
  have hpct : c3FiftyRule.criticality_threshold_pct
      ≤ failurePct
          ([some "a", none].length - (nullPassing [some "a", none] none).length)
          [some "a", none].length := by
    show (50 : Rat) ≤ failurePct 1 2
    norm_num [failurePct]
  have h := c3_critical_breach_aborts [some "a", none] none c3FiftyRule rfl
    (by decide) hpct
  have hn : [some "a", none].length - (nullPassing [some "a", none] none).length
      = 1 := by decide
  have hp : failurePct 1 2 = (50 : Rat) := by norm_num [failurePct]
  rw [hn] at h
  rw [show failurePct 1 [some "a", none].length = (50 : Rat) from hp] at h
  exact ⟨rfl, by decide, hpct, h⟩

/-- C9: for a location containing a slash, the resolver's bucket is the
environment tag, a hyphen and the first slash-separated segment; the key
is the remaining segments rejoined with slashes; and the URI is
`s3a://bucket/key`. -/
theorem c9_path_resolver (location env : String)
    (h : hasSubstr location "/" = true) :
    (path_to_s3 location env).bucket
        = env ++ "-" ++ (strSplitOn location "/").headD ""
      ∧ (path_to_s3 location env).key
          = strJoinWith "/" (strSplitOn location "/").tail
      ∧ (path_to_s3 location env).s3_location
          = "s3a://" ++ (path_to_s3 location env).bucket ++ "/"
              ++ (path_to_s3 location env).key :=
  ⟨rfl, rfl, rfl⟩

/-- C9 witness: the docstring example `data/input/file.csv` in environment
`dev` resolves to bucket `dev-data`, key `input/file.csv` and URI
`s3a://dev-data/input/file.csv`. -/
theorem c9_path_resolver_witness :
    hasSubstr "data/input/file.csv" "/" = true
      ∧ ((path_to_s3 "data/input/file.csv" "dev").bucket
            = "dev" ++ "-" ++ (strSplitOn "data/input/file.csv" "/").headD ""
          ∧ (path_to_s3 "data/input/file.csv" "dev").key
              = strJoinWith "/" (strSplitOn "data/input/file.csv" "/").tail
          ∧ (path_to_s3 "data/input/file.csv" "dev").s3_location
              = "s3a://" ++ (path_to_s3 "data/input/file.csv" "dev").bucket
                  ++ "/" ++ (path_to_s3 "data/input/file.csv" "dev").key)
      ∧ path_to_s3 "data/input/file.csv" "dev"
          = { bucket := "dev-data", key := "input/file.csv"
              s3_location := "s3a://dev-data/input/file.csv" } :=
  ⟨by decide, c9_path_resolver "data/input/file.csv" "dev" (by decide),
    by decide⟩

/-- C2 counterexample: a staging frame holding two rows with the same
primary key, both active, merged into an empty gold table leaves two rows
with key `1` whose `eff_end_dt` is the sentinel — the claim's at-most-one
bound fails as stated. -/
theorem c2_duplicate_staging_keys_break_invariant :
    countActive (scdType2Merge c2DupStaging []) "1" = 2 := by
  decide

/-- The fold computing `maxColLen` never drops below its accumulator. -/
theorem maxColLen_foldl_le_acc (l : List (String × List String)) (acc : Nat) :
    acc ≤ l.foldl (fun a kv => max a kv.2.length) acc := by
  induction l generalizing acc with
  | nil => exact Nat.le_refl acc
  | cons hd t ih =>
    exact Nat.le_trans (Nat.le_max_left acc hd.2.length) (ih _)

/-- Every column's length bounds into the `maxColLen` fold. -/
theorem len_le_maxColLen_foldl (l : List (String × List String))
    (kv : String × List String) (acc : Nat) (h : kv ∈ l) :
    kv.2.length ≤ l.foldl (fun a kv => max a kv.2.length) acc := by
  induction l generalizing acc with
  | nil => cases h
  | cons hd t ih =>
    rcases List.mem_cons.mp h with heq | ht
    · subst heq
      exact Nat.le_trans (Nat.le_max_right acc kv.2.length)
        (maxColLen_foldl_le_acc t _)
    · exact ih _ ht

/-- C10: for a non-empty map of columns to non-empty value lists, the row
assembler emits exactly `maxColLen`-many rows (at least one), and row `i`
pairs each column name with the Python int-or-string coercion of that
column's `i`-th value, falling back to the column's last value when the
column is shorter. -/
theorem c10_convert_to_dict_alignment (data : List (String × List String))
    (hne : data ≠ []) (hcols : ∀ kv ∈ data, kv.2 ≠ []) :
    0 < maxColLen data
      ∧ (convert_to_dict data).length = maxColLen data
      ∧ ∀ i < maxColLen data,
          (convert_to_dict data)[i]? =
            some (data.map fun kv =>
              (kv.1,
                pyCoerce
                  (if i < kv.2.length then kv.2[i]! else kv.2.getLastD ""))) := by
  refine ⟨?_, ?_, ?_⟩
  · obtain ⟨kv, hkv⟩ := List.exists_mem_of_ne_nil data hne
    have h1 : 0 < kv.2.length := List.length_pos.mpr (hcols kv hkv)
    exact Nat.lt_of_lt_of_le h1 (len_le_maxColLen_foldl data kv 0 hkv)
  · simp [convert_to_dict]
  · intro i hi
    simp [convert_to_dict, convertRow, List.getElem?_range hi]

/-- C10 witness: the docstring example — names `Alice`, `Bob` and ages
`30`, `25` — satisfies the hypotheses and yields two rows with the ages
converted to ints, obtained by applying the alignment theorem. -/
theorem c10_convert_to_dict_alignment_witness :
    c10Data ≠ []
      ∧ (∀ kv ∈ c10Data, kv.2 ≠ [])
      ∧ (0 < maxColLen c10Data
          ∧ (convert_to_dict c10Data).length = maxColLen c10Data
          ∧ ∀ i < maxColLen c10Data,
              (convert_to_dict c10Data)[i]? =
                some (c10Data.map fun kv =>
                  (kv.1,
                    pyCoerce
                      (if i < kv.2.length then kv.2[i]!
                       else kv.2.getLastD ""))))
      ∧ convert_to_dict c10Data
          = [[("name", PyCell.ofStr "Alice"), ("age", PyCell.ofInt 30)],
             [("name", PyCell.ofStr "Bob"), ("age", PyCell.ofInt 25)]] :=
  ⟨by decide, by decide,
    c10_convert_to_dict_alignment c10Data (by decide) (by decide), by decide⟩

/-- Phase-1 updating cannot make a row an active key-`k` row that was not
one already: an update keeps the key, and a matched row was active to
begin with (the merge predicate requires the sentinel on the target
side). -/
theorem actK_phase1Update (staging : List GoldRow) (x : GoldRow) (k : String)
    (h : actK k (phase1Update staging x) = true) : actK k x = true := by
  unfold phase1Update at h
  cases hf : staging.find? (fun s => mergePred x s) with
  | none =>
    rw [hf] at h
    exact h
  | some s =>
    rw [hf] at h
    dsimp only at h
    by_cases hc : x.sys_checksum ≠ s.sys_checksum
    · rw [if_pos hc] at h
      have hm : mergePred x s = true := List.find?_some hf
      unfold mergePred at hm
      have hm1 : (x.eff_end_dt == scdSentinel) = true :=
        (Bool.and_eq_true _ _ ▸ hm).1
      have h1 : (x.key == k) = true := (Bool.and_eq_true _ _ ▸ h).1
      unfold actK
      rw [Bool.and_eq_true]
      exact ⟨h1, hm1⟩
    · rw [if_neg hc] at h
      exact h

/-- A staging row passing either `when_not_matched_insert_all` carries its
own key, so key-`k` insertions are bounded by the key-`k` staging rows. -/
theorem countP_notMatched_le (staging tbl : List GoldRow) (k : String) :
    (notMatchedInserts staging tbl).countP (actK k)
      ≤ staging.countP (fun s => s.key == k) := by
  unfold notMatchedInserts
  rw [List.countP_filter]
  refine List.countP_mono_left fun s _ h => ?_
  have h1 := (Bool.and_eq_true _ _ ▸ h).1
  exact (Bool.and_eq_true _ _ ▸ h1).1

/-- An active key-`k` row present in the merge target blocks every key-`k`
staging row from `when_not_matched_insert_all`: they all match it. -/
theorem countP_notMatched_zero_of_active (staging tbl : List GoldRow)
    (k : String) (t : GoldRow) (ht : t ∈ tbl) (hta : actK k t = true) :
    (notMatchedInserts staging tbl).countP (actK k) = 0 := by
  refine List.countP_eq_zero.mpr fun s hs hssact => ?_
  have hmem := List.mem_filter.mp hs
  have hnone : (tbl.any fun t' => mergePred t' s) = false := by
    simpa using hmem.2
  have htk := Bool.and_eq_true _ _ ▸ hta
  have hsk := Bool.and_eq_true _ _ ▸ hssact
  have hyes : (tbl.any fun t' => mergePred t' s) = true := by
    refine List.any_eq_true.mpr ⟨t, ht, ?_⟩
    unfold mergePred
    rw [htk.2, Bool.true_and, beq_iff_eq, eq_of_beq htk.1, eq_of_beq hsk.1]
  rw [hyes] at hnone
  exact Bool.noConfusion hnone

/-- Distinct staging keys mean at most one staging row carries key `k`. -/
theorem countP_staging_key_le_one (staging : List GoldRow) (k : String)
    (hkeys : (staging.map GoldRow.key).Nodup) :
    staging.countP (fun s => s.key == k) ≤ 1 := by
  have h1 := List.nodup_iff_count_le_one.mp hkeys k
  rw [List.count_eq_countP, List.countP_map] at h1
  simpa [Function.comp] using h1

/-- Phase-1 updating cannot create active key-`k` rows: the updated target
has at most as many as the original. -/
theorem countP_updated_le (staging target : List GoldRow) (k : String) :
    (target.map (phase1Update staging)).countP (actK k)
      ≤ target.countP (actK k) := by
  rw [List.countP_map]
  exact List.countP_mono_left fun x _ hpx => actK_phase1Update staging x k hpx

/-- C2 amended: for a staging frame whose rows carry pairwise-distinct
primary keys, the two-phase merge preserves the invariant: a key with at
most one active gold row before the merge has at most one active gold row
after it.  With duplicate primary keys in one staging frame the invariant
can break, as the counterexample shows. -/
theorem c2_scd2_merge_preserves_single_active (staging target : List GoldRow)
    (k : String)
    (hkeys : (staging.map GoldRow.key).Nodup)
    (htgt : countActive target k ≤ 1) :
    countActive (scdType2Merge staging target) k ≤ 1 := by
  classical
  have hsplit : countActive (scdType2Merge staging target) k
      = (target.map (phase1Update staging)).countP (actK k)
          + (notMatchedInserts staging target).countP (actK k)
          + (notMatchedInserts staging
              (target.map (phase1Update staging)
                ++ notMatchedInserts staging target)).countP (actK k) := by
    show ((target.map (phase1Update staging) ++ notMatchedInserts staging target)
        ++ notMatchedInserts staging
            (target.map (phase1Update staging)
              ++ notMatchedInserts staging target)).countP (actK k) = _
    rw [List.countP_append, List.countP_append]
  rw [hsplit]
  have hkey1 := countP_staging_key_le_one staging k hkeys
  have hB := countP_notMatched_le staging target k
  have hC := countP_notMatched_le staging
    (target.map (phase1Update staging) ++ notMatchedInserts staging target) k
  by_cases hA : (target.map (phase1Update staging)).countP (actK k) = 0
  · by_cases hb : (notMatchedInserts staging target).countP (actK k) = 0
    · rw [hA, hb]
      simpa using hC.trans hkey1
    · obtain ⟨s0, hs0i, hs0a⟩ := List.countP_pos.mp (Nat.pos_of_ne_zero hb)
      have hC0 := countP_notMatched_zero_of_active staging
        (target.map (phase1Update staging) ++ notMatchedInserts staging target)
        k s0 (List.mem_append_right _ hs0i) hs0a
      rw [hA, hC0]
      simpa using hB.trans hkey1
  · obtain ⟨a, hmem, hactA⟩ := List.countP_pos.mp (Nat.pos_of_ne_zero hA)
    obtain ⟨t, htm, hta⟩ := List.mem_map.mp hmem
    have htact : actK k t = true :=
      actK_phase1Update staging t k (hta.symm ▸ hactA)
    have hB0 := countP_notMatched_zero_of_active staging target k t htm htact
    have hC0 := countP_notMatched_zero_of_active staging
      (target.map (phase1Update staging) ++ notMatchedInserts staging target)
      k a (List.mem_append_left _ hmem) hactA
    have hAle := countP_updated_le staging target k
    have hfin : target.countP (actK k) ≤ 1 := htgt
    rw [hB0, hC0]
    omega

/-- C2 witness: the spec's day-2 update scenario — one active `id=1` row,
one staging row for `id=1` with a new checksum — satisfies the amended
hypotheses; the merge yields exactly the closed day-1 row
(`eff_end_dt = 2024-01-02`, `sys_del_flg = Y`) followed by the new active
row, and the preservation theorem bounds the active count by one. -/
theorem c2_scd2_merge_preserves_single_active_witness :
    (c2StagingNew.map GoldRow.key).Nodup
      ∧ countActive c2TargetOld "1" ≤ 1
      ∧ countActive (scdType2Merge c2StagingNew c2TargetOld) "1" ≤ 1
      ∧ scdType2Merge c2StagingNew c2TargetOld
          = [{ key := "1", sys_checksum := "a", eff_strt_dt := "2024-01-01"
               eff_end_dt := "2024-01-02", sys_del_flg := "Y" },
             { key := "1", sys_checksum := "b", eff_strt_dt := "2024-01-02"
               eff_end_dt := scdSentinel, sys_del_flg := "N" }] :=
  ⟨by decide, by decide,
    c2_scd2_merge_preserves_single_active c2StagingNew c2TargetOld "1"
      (by decide) (by decide),
    by decide⟩

end Datacraft
